import Mathlib

/-!
A shallow embedding of `perfkitbenchmarker/benchmark_spec.py` (the
resource-lifecycle orchestrator of PerfKitBenchmarker) together with proofs
about zone assignment, network memoization, topology parsing, the
prepare/delete lifecycle, provider tables and snapshot persistence.

Conventions of the embedding:
* Python dictionary lookups that can raise `KeyError` are modelled with
  `Except PkbError`; a `KeyError` on a provider-keyed table is the error the
  design document calls `UnknownProviderError` and gets its own constructor.
* Mutation of `self` is modelled by explicit state passing over `SpecState`.
* External collaborators (provider bindings, the thread pool, the file
  system, pickling) are modelled at their interface boundary; concurrent
  batches are modelled by their sequential linearization in item order (no
  proved statement depends on the interleaving between items).
-/

namespace PKB

/-- Provider identifier constant from the source module. -/
def GCP : String := "GCP"

/-- Provider identifier constant from the source module. -/
def AZURE : String := "Azure"

/-- Provider identifier constant from the source module. -/
def AWS : String := "AWS"

/-- Logical disk type constant from the source module. -/
def STANDARD : String := "standard"

/-- Logical disk type constant from the source module. -/
def SSD : String := "ssd"

/-- Logical disk type constant from the source module (provisioned IOPS in AWS). -/
def IOPS : String := "iops"

/-- The fixed remote-access port opened for every VM. -/
def SSH_PORT : Nat := 22

/-- Errors raised by the embedded code.  Python raises `KeyError` on a missing
dictionary key; a `KeyError` on one of the provider-keyed tables (`DEFAULTS`,
`CLASSES`, `DISK_TYPE`) is what the design document calls
`UnknownProviderError`, so it is given its own constructor.  `valueError`
models Python `ValueError` (bad `int()` input, bad `split` arity),
`indexError` models indexing `self.zones[0]` on an empty list, and
`typeMismatch` models operating on `self.image` / `self.machine_type` at the
wrong mode-dependent type. -/
inductive PkbError where
  | unknownProvider (cloud : String)
  | keyError (key : String)
  | valueError (s : String)
  | indexError
  | typeMismatch
deriving DecidableEq, Repr

/-- Per-provider default values (the `DEFAULTS` table entries). -/
structure ProviderDefaults where
  image : Option String
  machine_type : String
  zone : String
deriving DecidableEq, Repr

/-- The `DEFAULTS` table of benchmark_spec.py (lines 45-62): provider defaults
for image, machine type and zone.  The AWS image is `None` in the source.
Lookup of an unregistered provider raises (KeyError in Python). -/
def DEFAULTS (cloud : String) : Except PkbError ProviderDefaults :=
  if cloud = GCP then
    .ok ⟨some "debian-7-backports", "n1-standard-1", "us-central1-a"⟩
  else if cloud = AZURE then
    .ok ⟨some "b39f27a8b8c64d52b05eac6a62ebad85__Ubuntu-14_04-LTS-amd64-server-20140724-en-us-30GB",
         "small", "East US"⟩
  else if cloud = AWS then
    .ok ⟨none, "m3.medium", "us-east-1a"⟩
  else
    .error (.unknownProvider cloud)

/-- A provider network object (`GceNetwork` / `AzureNetwork` / `AwsNetwork`),
identified by the provider it belongs to and the zone it was constructed
from. -/
structure Network where
  cloud : String
  zone : String
deriving DecidableEq, Repr

/-- A provider firewall object, constructed from a project id. -/
structure Firewall where
  cloud : String
  project : String
deriving DecidableEq, Repr

/-- `disk.BaseDiskSpec(disk_size, disk_type, mount_point)`: size, the
provider-specific disk type string (`None` is an explicit null, as for Azure
standard disks), and the mount point. -/
structure BaseDiskSpec where
  disk_size : Nat
  disk_type : Option String
  mount_point : String
deriving DecidableEq, Repr

/-- `virtual_machine.BaseVirtualMachineSpec(project, zone, machine_type,
image, network)`.  The network field is the (shared) network of the zone the
VM is placed in. -/
structure BaseVirtualMachineSpec where
  project : String
  zone : String
  machine_type : String
  image : Option String
  network : Network
deriving DecidableEq, Repr

/-- A virtual machine object: the provider class it was built by, the spec it
was built from, and its mutable list of pending disk specs. -/
structure VM where
  cloud : String
  vm_spec : BaseVirtualMachineSpec
  disk_specs : List BaseDiskSpec
deriving DecidableEq, Repr

/-- The capability triple a `CLASSES` entry holds: the VirtualMachine,
Network and Firewall constructors of one provider. -/
structure ProviderClasses where
  virtual_machine : BaseVirtualMachineSpec → VM
  network : String → Network
  firewall : String → Firewall

/-- The `CLASSES` table of benchmark_spec.py (lines 63-79).  Each provider
class is modelled by tagging the constructed object with the provider
identifier.  Lookup of an unregistered provider raises. -/
def CLASSES (cloud : String) : Except PkbError ProviderClasses :=
  if cloud = GCP then
    .ok ⟨fun spec => ⟨GCP, spec, []⟩, fun zone => ⟨GCP, zone⟩, fun project => ⟨GCP, project⟩⟩
  else if cloud = AZURE then
    .ok ⟨fun spec => ⟨AZURE, spec, []⟩, fun zone => ⟨AZURE, zone⟩, fun project => ⟨AZURE, project⟩⟩
  else if cloud = AWS then
    .ok ⟨fun spec => ⟨AWS, spec, []⟩, fun zone => ⟨AWS, zone⟩, fun project => ⟨AWS, project⟩⟩
  else
    .error (.unknownProvider cloud)

/-- The `DISK_TYPE` table of benchmark_spec.py (lines 83-96): logical disk
type to provider-specific string.  Azure maps `standard` to `None` — an
explicit null value stored in the table, not a missing key.  A missing inner
key raises `KeyError(disk_type)`; a missing provider raises on the provider
key. -/
def DISK_TYPE (cloud disk_type : String) : Except PkbError (Option String) :=
  if cloud = GCP then
    if disk_type = STANDARD then .ok (some "pd-standard")
    else if disk_type = SSD then .ok (some "pd-ssd")
    else .error (.keyError disk_type)
  else if cloud = AWS then
    if disk_type = STANDARD then .ok (some "standard")
    else if disk_type = SSD then .ok (some "gp2")
    else if disk_type = IOPS then .ok (some "io1")
    else .error (.keyError disk_type)
  else if cloud = AZURE then
    if disk_type = STANDARD then .ok none
    else .error (.keyError disk_type)
  else
    .error (.unknownProvider cloud)

/-- A Python attribute that holds a scalar in flag-driven mode and a list of
strings in topology mode: the source stores both `self.image` and
`self.machine_type` at either type depending on the mode. -/
inductive PyAttr (α : Type) where
  | scalar (a : α)
  | list (l : List String)
deriving DecidableEq, Repr

/-- The mutable state of a `BenchmarkSpec` object.  `networks` and `vm_dict`
are Python dictionaries modelled as association lists in insertion order;
`static_vms` models the pool behind
`StaticVirtualMachine.GetStaticVirtualMachine()` (outside src, see
`CreateVirtualMachine`); `vm_spec` is the stray `self.vm_spec` attribute the
source overwrites on every `CreateVirtualMachine` call. -/
structure SpecState where
  cloud : String
  project : String
  zones : List String
  image : PyAttr (Option String)
  machine_type : PyAttr String
  networks : List (String × Network)
  vms : List VM
  vm_dict : List (String × List VM)
  static_vms : List VM
  vm_spec : Option BaseVirtualMachineSpec
  firewall : Option Firewall
  file_name : String
  deleted : Bool
  num_vms : Nat
  scratch_disk_size : Nat
  scratch_disk_type : String
deriving DecidableEq, Repr

/-- Python `self.zones[0]`: the head of the zone list, or `IndexError` when
the list is empty. -/
def headE (zones : List String) : Except PkbError String :=
  match zones with
  | [] => .error .indexError
  | z :: _ => .ok z

/-- Assignment `d[k] = v` on a Python dictionary modelled as an association
list: update the existing entry in place, or append a new one. -/
def dictSet {α : Type} (d : List (String × α)) (k : String) (v : α) : List (String × α) :=
  if d.any (fun p => p.1 == k) then
    d.map (fun p => if p.1 == k then (k, v) else p)
  else
    d ++ [(k, v)]

/-- Zone resolution of line 207, `zone = opt_zone or self.zones[0]`: Python
treats `None` and the empty string as falsy, so both fall back to
`self.zones[0]` (an IndexError when the zone list is empty). -/
def resolveZone (s : SpecState) (opt_zone : Option String) : Except PkbError String :=
  match opt_zone with
  | some z => if z.isEmpty then headE s.zones else .ok z
  | none => headE s.zones

/-- Lines 208-214 of `CreateVirtualMachine`: memoize the zone network on
first use, build the `BaseVirtualMachineSpec` from the plan-level fields and
the zone network, store it in `self.vm_spec`, and construct the VM via the
provider class. -/
def mkVmInZone (s : SpecState) (cls : ProviderClasses) (zone : String) :
    Except PkbError (SpecState × VM) := do
  let machine_type ← match s.machine_type with
    | .scalar m => .ok m
    | .list _ => .error .typeMismatch
  let image ← match s.image with
    | .scalar i => .ok i
    | .list _ => .error .typeMismatch
  match s.networks.lookup zone with
  | some net =>
    let spec : BaseVirtualMachineSpec := ⟨s.project, zone, machine_type, image, net⟩
    .ok ({ s with vm_spec := some spec }, cls.virtual_machine spec)
  | none =>
    let net := cls.network zone
    let spec : BaseVirtualMachineSpec := ⟨s.project, zone, machine_type, image, net⟩
    .ok ({ s with networks := s.networks ++ [(zone, net)], vm_spec := some spec },
         cls.virtual_machine spec)

/-- benchmark_spec.py lines 194-214, `BenchmarkSpec.CreateVirtualMachine`.
The static-VM override is modelled from the spec (the
`static_virtual_machine` module is outside src): an optional pool of
pre-existing VM handles consumed in order, bypassing normal creation.
Otherwise look up the provider VM class, resolve the zone, and build the VM
in that zone.  Returns the updated state and the constructed VM (the caller
appends it to `self.vms`). -/
def CreateVirtualMachine (s : SpecState) (opt_zone : Option String) :
    Except PkbError (SpecState × VM) :=
  match s.static_vms with
  | vm :: rest => .ok ({ s with static_vms := rest }, vm)
  | [] => do
    let cls ← CLASSES s.cloud
    let zone ← resolveZone s opt_zone
    mkVmInZone s cls zone

/-- Python `str.split(sep)` with a one-character separator, as a structural
recursion on the character list: every occurrence of the separator starts a
new field, and the empty string yields one empty field. -/
def charsSplit (sep : Char) : List Char → List (List Char)
  | [] => [[]]
  | c :: rest =>
    match charsSplit sep rest with
    | [] => if c = sep then [[], []] else [[c]]
    | h :: t => if c = sep then [] :: h :: t else (c :: h) :: t

/-- Python `str.split(sep)` for a one-character separator. -/
def pySplit (sep : Char) (s : String) : List String :=
  (charsSplit sep s.toList).map (fun cs => String.mk cs)

/-- Python `str.startswith(marker)`. -/
def pyStartsWith (marker s : String) : Bool :=
  marker.toList.isPrefixOf s.toList

/-- Digit accumulator for `int()`: consumes decimal digits, `none` when the
input is empty or holds a non-digit. -/
def pyParseNatAux : List Char → Option Nat → Option Nat
  | [], acc => acc
  | c :: rest, acc =>
    if c.isDigit then
      pyParseNatAux rest (some ((acc.getD 0) * 10 + (c.toNat - 48)))
    else none

/-- Python `int(s)` restricted to non-negative decimal strings. -/
def pyParseNat (s : String) : Option Nat :=
  pyParseNatAux s.toList none

/-- Python `int(s)` on decimal strings with an optional leading minus. -/
def pyParseInt (s : String) : Option Int :=
  match s.toList with
  | '-' :: rest => (pyParseNatAux rest none).map (fun n => -(n : Int))
  | _ => (pyParseNat s).map (fun n => (n : Int))

/-- Modelled from the spec: the reserved persistent-disk key marker
(`ini_constants.OPTION_PD_PREFIX`, whose module is outside src).  The spec
describes disk declarations as keys beginning with a reserved persistent-disk
marker and its example key is `pd_scratch0`. -/
def pdOptionMarker : String := "pd_"

/-- The disk-spec loop at the end of `CreateVirtualMachineFromNodeSection`
(lines 243-252): every option whose key starts with the persistent-disk
marker is split on `:` into size, logical type and mount point, resolved
through `DISK_TYPE`, and the resulting disk spec is appended to every VM of
the section.  A value that does not split into exactly three parts, or whose
size is not a number, raises `ValueError`. -/
def attachDisks (cloud : String) (opts : List (String × String)) (vms : List VM) :
    Except PkbError (List VM) :=
  match opts with
  | [] => .ok vms
  | (k, v) :: rest =>
    if pyStartsWith pdOptionMarker k then
      match pySplit ':' v with
      | [sz, dt, mnt] =>
        match pyParseNat sz with
        | some disk_size => do
          let t ← DISK_TYPE cloud dt
          attachDisks cloud rest
            (vms.map fun vm => { vm with disk_specs := vm.disk_specs ++ [⟨disk_size, t, mnt⟩] })
        | none => .error (.valueError sz)
      | _ => .error (.valueError v)
    else
      attachDisks cloud rest vms

/-- Line 223: the section zone, defaulting to `self.zones[0]` when the
section has no zone key. -/
def sectionZone (s : SpecState) (node_section : List (String × String)) :
    Except PkbError String :=
  match node_section.lookup "zone" with
  | some z => .ok z
  | none => headE s.zones

/-- Lines 224-225: append a newly seen zone to the plan-level zone summary
list (each value at most once). -/
def noteZone (s : SpecState) (zone : String) : SpecState :=
  if zone ∈ s.zones then s else { s with zones := s.zones ++ [zone] }

/-- Lines 226-227: append a newly seen image to the plan-level image summary
list (a list only in topology mode). -/
def noteImage (s : SpecState) (image : String) : Except PkbError SpecState :=
  match s.image with
  | .list l => .ok (if image ∈ l then s else { s with image := .list (l ++ [image]) })
  | .scalar _ => .error .typeMismatch

/-- Lines 228-229: append a newly seen machine type to the plan-level
machine-type summary list. -/
def noteMachineType (s : SpecState) (vm_type : String) : Except PkbError SpecState :=
  match s.machine_type with
  | .list l => .ok (if vm_type ∈ l then s else { s with machine_type := .list (l ++ [vm_type]) })
  | .scalar _ => .error .typeMismatch

/-- Lines 230-232: create and memoize the zone network if this zone has none
yet. -/
def ensureNetwork (s : SpecState) (cls : ProviderClasses) (zone : String) : SpecState :=
  match s.networks.lookup zone with
  | some _ => s
  | none => { s with networks := s.networks ++ [(zone, cls.network zone)] }

/-- benchmark_spec.py lines 216-252, `CreateVirtualMachineFromNodeSection`.
A node section is a dictionary of option name / option value pairs.  The
zone defaults to `self.zones[0]`; new zones, images and machine types are
appended (at most once) to the plan-level summary lists; the zone network is
memoized; `count` VMs are built from one spec and extended onto `self.vms`
and `self.vm_dict[node_name]`; finally every persistent-disk option attaches
one disk spec to every VM of the section.  In the source the VM objects are
appended to the plan lists before the disk loop mutates them in place; with
value semantics the disks are attached first and the final lists hold the
same fully-attached VMs. -/
def CreateVirtualMachineFromNodeSection (s : SpecState)
    (node_section : List (String × String)) (node_name : String) :
    Except PkbError SpecState := do
  let zone ← sectionZone s node_section
  let s := noteZone s zone
  let image ← match node_section.lookup "image" with
    | some i => .ok i
    | none => .error (.keyError "image")
  let s ← noteImage s image
  let vm_type ← match node_section.lookup "vm_type" with
    | some m => .ok m
    | none => .error (.keyError "vm_type")
  let s ← noteMachineType s vm_type
  let cls ← CLASSES s.cloud
  let s := ensureNetwork s cls zone
  let net ← match s.networks.lookup zone with
    | some n => .ok n
    | none => .error (.keyError zone)
  let vm_spec : BaseVirtualMachineSpec := ⟨s.project, zone, vm_type, some image, net⟩
  let countStr ← match node_section.lookup "count" with
    | some c => .ok c
    | none => .error (.keyError "count")
  let count ← match pyParseInt countStr with
    | some n => .ok n.toNat
    | none => .error (.valueError countStr)
  let vms := List.replicate count (cls.virtual_machine vm_spec)
  let group ← match s.vm_dict.lookup node_name with
    | some g => .ok g
    | none => .error (.keyError node_name)
  let newVms ← attachDisks s.cloud node_section vms
  .ok { s with
        vms := s.vms ++ newVms
        vm_dict := dictSet s.vm_dict node_name (group ++ newVms) }

/-- Python truthiness fallback `flag or default` on optional strings: `None`
and the empty string fall back to the default. -/
def pyOrStr (flag dflt : Option String) : Option String :=
  match flag with
  | some s => if s.isEmpty then dflt else some s
  | none => dflt

/-- The command-line flags the flag-driven mode reads. -/
structure Flags where
  cloud : String
  project : String
  zones : List String
  image : Option String
  machine_type : Option String
  num_vms : Nat
  scratch_disk_size : Nat
  scratch_disk_type : String
  run_stage : String
deriving DecidableEq, Repr

/-- The `benchmark_info` dictionary fields `__init__` reads. -/
structure BenchmarkInfo where
  name : String
  num_machines : Option Nat
  scratch_disk : Nat
deriving DecidableEq, Repr

/-- `self.zones[min(index, len(self.zones) - 1)]` (line 155): the zone
assigned to the VM built at a given index. -/
def zoneAt (zones : List String) (i : Nat) : String :=
  zones.getD (min i (zones.length - 1)) ""

/-- The list comprehension of lines 153-156: build one VM per index,
threading the state (network memoization) left to right. -/
def buildVms (s : SpecState) (idxs : List Nat) : Except PkbError (SpecState × List VM) :=
  match idxs with
  | [] => .ok (s, [])
  | i :: rest => do
    let (s1, vm) ← CreateVirtualMachine s (some (zoneAt s.zones i))
    let (s2, vms) ← buildVms s1 rest
    .ok (s2, vm :: vms)

/-- The scratch-disk loop of lines 158-164: for each disk index, one
`BaseDiskSpec(scratch_disk_size, DISK_TYPE[cloud][STANDARD], "/scratch<i>")`
is appended to every VM. -/
def addScratchDisks (cloud : String) (size : Nat) (idxs : List Nat) (vms : List VM) :
    Except PkbError (List VM) :=
  match idxs with
  | [] => .ok vms
  | i :: rest => do
    let t ← DISK_TYPE cloud STANDARD
    addScratchDisks cloud size rest
      (vms.map fun vm =>
        { vm with disk_specs := vm.disk_specs ++ [⟨size, t, "/scratch" ++ toString i⟩] })

/-- The state of the spec object right before the VM-building comprehension
of line 153: the field assignments of lines 115-117 and 139-151, with the
flag-or-default fallbacks (Python `or` treats `None` and empty values as
falsy, including `FLAGS.zones` being an empty list). -/
def initState (flags : Flags) (defaults : ProviderDefaults) (num_vms : Nat)
    (static_vms : List VM) : SpecState :=
  { cloud := flags.cloud, project := flags.project,
    zones := if flags.zones.isEmpty then [defaults.zone] else flags.zones,
    image := .scalar (pyOrStr flags.image defaults.image),
    machine_type := .scalar (match flags.machine_type with
      | some m => if m.isEmpty then defaults.machine_type else m
      | none => defaults.machine_type),
    networks := [], vms := [], vm_dict := [("default", [])],
    static_vms := static_vms, vm_spec := none, firewall := none,
    file_name := "", deleted := false, num_vms := num_vms,
    scratch_disk_size := flags.scratch_disk_size,
    scratch_disk_type := flags.scratch_disk_type }

/-- benchmark_spec.py lines 138-169: the flag-driven (homogeneous) branch of
`BenchmarkSpec.__init__`, plus the mode-independent tail (firewall,
file name, deleted flag).  `vm_util.GetTempDir()` is passed in as `tmpdir`
and the static-VM pool as `static_vms`.  In the source the scratch-disk loop
mutates the already-registered VM objects in place; with value semantics the
disks are attached before `self.vms` / `self.vm_dict` receive the final
VMs. -/
def initHomogeneous (flags : Flags) (benchmark_info : BenchmarkInfo) (tmpdir : String)
    (static_vms : List VM) : Except PkbError SpecState := do
  let cloud := flags.cloud
  let defaults ← DEFAULTS cloud
  let num_vms := match benchmark_info.num_machines with
    | none => flags.num_vms
    | some n => n
  let s0 := initState flags defaults num_vms static_vms
  let (s1, vms) ← buildVms s0 (List.range num_vms)
  let vmsFinal ← addScratchDisks cloud flags.scratch_disk_size
      (List.range benchmark_info.scratch_disk) vms
  let cls ← CLASSES cloud
  .ok { s1 with
        vms := vmsFinal
        vm_dict := dictSet s1.vm_dict "default" vmsFinal
        firewall := some (cls.firewall flags.project)
        file_name := tmpdir ++ "/" ++ benchmark_info.name }

/-- One step of a single VM preparation sequence (`PrepareVm`,
lines 254-269).  Logging calls are not steps. -/
inductive VmStep where
  | create
  | allowPort (port : Nat)
  | waitBoot
  | aptUpdate
  | createScratchDisk (spec : BaseDiskSpec)
  | burnCpu
deriving DecidableEq, Repr

/-- benchmark_spec.py lines 254-269, `BenchmarkSpec.PrepareVm`: the straight
line body emits, in source order, one step per external call — `vm.Create()`,
`firewall.AllowPort(vm, SSH_PORT)`, `vm.WaitForBootCompletion()`,
`vm.AptUpdate()`, one `vm.CreateScratchDisk(disk_spec)` per entry of
`vm.disk_specs`, and `perfkitbenchmarker_lib.BurnCpu(vm)`.  Each source
statement appends its step to the trace. -/
def PrepareVm (vm : VM) : List VmStep :=
  let t := [VmStep.create]
  let t := t ++ [VmStep.allowPort SSH_PORT]
  let t := t ++ [VmStep.waitBoot]
  let t := t ++ [VmStep.aptUpdate]
  let t := vm.disk_specs.foldl (fun acc disk_spec => acc ++ [VmStep.createScratchDisk disk_spec]) t
  t ++ [VmStep.burnCpu]

/-- A provider operation performed during `Delete` (lines 180-188). -/
inductive ProviderOp where
  | deleteVm (vm : VM)
  | deleteScratchDisks (vm : VM)
  | disallowAllPorts
  | deleteNetwork (zone : String)
deriving DecidableEq, Repr

/-- The result of a `Delete` call: the provider operations invoked (in the
sequential linearization of the batch), the state of the plan afterwards, and
whether the call returned normally (`ok = false` models an exception
propagating out of `Delete`). -/
structure DeleteOutcome where
  ops : List ProviderOp
  state : SpecState
  ok : Bool
deriving DecidableEq, Repr

/-- benchmark_spec.py lines 271-278, `DeleteVm`: `vm.Delete()` then
`vm.DeleteScratchDisks()`.  A failing step (per the failure oracle) aborts
the rest of this item only; the batch executor records the failure and other
items continue (spec section 4.3 — the executor is outside src). -/
def DeleteVm (fail : ProviderOp → Bool) (vm : VM) : List ProviderOp :=
  if fail (.deleteVm vm) then [.deleteVm vm]
  else [.deleteVm vm, .deleteScratchDisks vm]

/-- The sequential `for zone in self.networks: self.networks[zone].Delete()`
loop (lines 186-187).  A failing network delete raises, aborting the loop;
returns the operations attempted and whether the loop completed. -/
def deleteNetworks (fail : ProviderOp → Bool) (zones : List String) :
    List ProviderOp × Bool :=
  match zones with
  | [] => ([], true)
  | z :: rest =>
    if fail (.deleteNetwork z) then ([.deleteNetwork z], false)
    else
      let (ops, ok) := deleteNetworks fail rest
      (.deleteNetwork z :: ops, ok)

/-- benchmark_spec.py lines 180-188, `BenchmarkSpec.Delete`.  Returns
immediately when `FLAGS.run_stage` is not `all` or `cleanup`, or when the
plan is already deleted.  Otherwise: delete all VMs as a run-to-completion
batch (item failures are collected by the executor and do not raise), then
`self.firewall.DisallowAllPorts()`, then every network — these are direct
calls, so a failure there propagates and `self.deleted = True` on the last
line is never reached. -/
def Delete (run_stage : String) (fail : ProviderOp → Bool) (s : SpecState) : DeleteOutcome :=
  if run_stage ∉ ["all", "cleanup"] ∨ s.deleted then
    ⟨[], s, true⟩
  else if fail .disallowAllPorts then
    ⟨s.vms.flatMap (DeleteVm fail) ++ [.disallowAllPorts], s, false⟩
  else if (deleteNetworks fail (s.networks.map Prod.fst)).2 then
    ⟨s.vms.flatMap (DeleteVm fail) ++ [.disallowAllPorts] ++
        (deleteNetworks fail (s.networks.map Prod.fst)).1,
      { s with deleted := true }, true⟩
  else
    ⟨s.vms.flatMap (DeleteVm fail) ++ [.disallowAllPorts] ++
        (deleteNetworks fail (s.networks.map Prod.fst)).1,
      s, false⟩

/-- benchmark_spec.py lines 280-283, `PickleSpec`: serialize the plan object
graph to the file at `self.file_name`, replacing previous content.  The file
system is a map from path to stored plan; pickling a process-local object
graph and unpickling it restores an equal object graph, so the stored value
is the plan itself. -/
def PickleSpec (fs : List (String × SpecState)) (s : SpecState) : List (String × SpecState) :=
  (s.file_name, s) :: fs

/-- benchmark_spec.py lines 285-302, `GetSpecFromFile`: build the path from
the temp directory and the benchmark name, read and unpickle it; on any
exception log an error line and re-raise the same exception.  The reader
argument models `open` plus `pickle.load`; its error type is abstract since
Python re-raises whatever was thrown.  Returns the log lines emitted and the
outcome. -/
def GetSpecFromFile {ε : Type} (reader : String → Except ε SpecState)
    (tmpdir name : String) : List String × Except ε SpecState :=
  let file_name := tmpdir ++ "/" ++ name
  match reader file_name with
  | .error e => (["Unable to unpickle spec file for benchmark " ++ name ++ "."], .error e)
  | .ok spec => ([], .ok spec)

/-- A reader over the association-list file system used with
`GetSpecFromFile`: a missing path is an unreadable file. -/
def fsReader (fs : List (String × SpecState)) : String → Except String SpecState :=
  fun path =>
    match fs.lookup path with
    | some spec => .ok spec
    | none => .error ("No such file: " ++ path)

/-- One VM-creating call on a plan, for reasoning about arbitrary call
sequences. -/
inductive PlanOp where
  | createVm (opt_zone : Option String)
  | createFromSection (node_section : List (String × String)) (node_name : String)

/-- Run a sequence of VM-creating calls left to right; an exception aborts
the sequence. -/
def runOps (s : SpecState) (ops : List PlanOp) : Except PkbError SpecState :=
  match ops with
  | [] => .ok s
  | .createVm oz :: rest => do
    let (s1, _) ← CreateVirtualMachine s oz
    runOps s1 rest
  | .createFromSection sec name :: rest => do
    let s1 ← CreateVirtualMachineFromNodeSection s sec name
    runOps s1 rest

/-- A concrete VM used in example plans. -/
def exampleVM : VM :=
  ⟨"GCP", ⟨"p", "z1", "n1-standard-1", none, ⟨"GCP", "z1"⟩⟩, []⟩

/-- Concrete flags for flag-driven examples: GCP, two zones. -/
def exampleFlags : Flags :=
  { cloud := "GCP", project := "p", zones := ["z1", "z2"], image := none,
    machine_type := none, num_vms := 1, scratch_disk_size := 500,
    scratch_disk_type := "standard", run_stage := "all" }

/-- Concrete benchmark info: five machines, one scratch disk. -/
def exampleInfo : BenchmarkInfo := ⟨"iperf", some 5, 1⟩

/-- Flags whose zone list contains an empty string in a non-head position. -/
def flagsEmptyZone : Flags := { exampleFlags with zones := ["a", ""] }

/-- Benchmark info for the empty-zone example: two machines, no scratch disk. -/
def infoTwoVms : BenchmarkInfo := ⟨"iperf", some 2, 0⟩

/-- A concrete topology-mode state: GCP plan with one declared node group. -/
def exampleTopoState : SpecState :=
  { cloud := "GCP", project := "p", zones := ["z1"], image := .list [],
    machine_type := .list [], networks := [], vms := [], vm_dict := [("g", [])],
    static_vms := [], vm_spec := none, firewall := none, file_name := "",
    deleted := false, num_vms := 0, scratch_disk_size := 0, scratch_disk_type := "" }

/-- The node section of the topology example: count 3 and one persistent-disk
declaration. -/
def sectionC4 : List (String × String) :=
  [("zone", "z1"), ("image", "img1"), ("vm_type", "n1-standard-4"),
   ("count", "3"), ("pd_scratch0", "100:ssd:/scratch0")]

/-- A concrete fully-initialized plan with one VM, one network and a
firewall. -/
def examplePlan : SpecState :=
  { cloud := "GCP", project := "p", zones := ["z1"], image := .scalar none,
    machine_type := .scalar "n1-standard-1",
    networks := [("z1", ⟨"GCP", "z1"⟩)], vms := [exampleVM],
    vm_dict := [("default", [exampleVM])], static_vms := [], vm_spec := none,
    firewall := some ⟨"GCP", "p"⟩, file_name := "/tmp/iperf", deleted := false,
    num_vms := 1, scratch_disk_size := 500, scratch_disk_type := "standard" }

/-- A failure oracle under which only the firewall revoke fails. -/
def failFirewall : ProviderOp → Bool := fun op =>
  match op with
  | .disallowAllPorts => true
  | _ => false

/-- The failure oracle under which every provider operation succeeds. -/
def noFail : ProviderOp → Bool := fun _ => false

/-- A concrete sequence of VM-creating calls touching zone z1 twice (reuse),
z2 twice, and the default zone. -/
def exampleOps : List PlanOp :=
  [.createVm (some "z1"), .createVm (some "z2"), .createVm none,
   .createVm (some "z2")]

/-- A reader whose every path is unreadable. -/
def failingReader : String → Except String SpecState :=
  fun path => .error ("read failure: " ++ path)

/-! ## Helper lemmas -/

theorem list_foldl_append {α β : Type} (f : α → β) (l : List α) (t : List β) :
    l.foldl (fun acc x => acc ++ [f x]) t = t ++ l.map f := by
  induction l generalizing t with
  | nil => simp
  | cons x xs ih => simp [ih]

/-! ## C6: disk-alias resolution -/

/-- C6: logical type standard resolves to a provider-specific non-null string
for GCP and AWS, and to an explicit null sentinel (an ok value, not an
error) for Azure. -/
theorem c6_disk_alias :
    DISK_TYPE GCP STANDARD = .ok (some "pd-standard") ∧
    DISK_TYPE AWS STANDARD = .ok (some "standard") ∧
    DISK_TYPE AZURE STANDARD = .ok none :=
  ⟨rfl, rfl, rfl⟩

/-! ## C7: unknown provider -/

/-- C7: resolving an unregistered provider identifier (outside GCP, Azure,
AWS) to its defaults or capability constructors fails with the
unknown-provider error, and so does flag-driven construction with such a
provider. -/
theorem c7_unknown_provider (cloud : String)
    (h1 : cloud ≠ GCP) (h2 : cloud ≠ AZURE) (h3 : cloud ≠ AWS) :
    DEFAULTS cloud = .error (.unknownProvider cloud) ∧
    CLASSES cloud = .error (.unknownProvider cloud) ∧
    DISK_TYPE cloud STANDARD = .error (.unknownProvider cloud) ∧
    ∀ flags bi tmpdir static_vms, flags.cloud = cloud →
      initHomogeneous flags bi tmpdir static_vms = .error (.unknownProvider cloud) := by
  have hD : DEFAULTS cloud = .error (.unknownProvider cloud) := by
    unfold DEFAULTS
    rw [if_neg h1, if_neg h2, if_neg h3]
  have hC : CLASSES cloud = .error (.unknownProvider cloud) := by
    unfold CLASSES
    rw [if_neg h1, if_neg h2, if_neg h3]
  have hT : DISK_TYPE cloud STANDARD = .error (.unknownProvider cloud) := by
    unfold DISK_TYPE
    rw [if_neg h1, if_neg h2, if_neg h3]
  refine ⟨hD, hC, hT, ?_⟩
  intro flags bi tmpdir static_vms hcl
  unfold initHomogeneous
  rw [hcl]
  simp only [hD]
  rfl

/-- Witness for C7 at the concrete unregistered identifier DigitalOcean. -/
theorem c7_unknown_provider_witness :
    DEFAULTS "DigitalOcean" = .error (.unknownProvider "DigitalOcean") ∧
    CLASSES "DigitalOcean" = .error (.unknownProvider "DigitalOcean") ∧
    initHomogeneous { exampleFlags with cloud := "DigitalOcean" } exampleInfo "/tmp" [] =
      .error (.unknownProvider "DigitalOcean") := by
  have h := c7_unknown_provider "DigitalOcean" (by decide) (by decide) (by decide)
  exact ⟨h.1, h.2.1, h.2.2.2 _ _ _ _ rfl⟩

/-! ## C3: PrepareVm step order -/

/-- C3: for every VM, the PrepareVm trace is exactly create, open port 22,
wait for boot, refresh the package index, one scratch-disk creation per
attached disk spec in order, then the CPU warm-up — no step skipped or
reordered. -/
theorem c3_prepare_vm_order (vm : VM) :
    PrepareVm vm =
      [VmStep.create, VmStep.allowPort 22, VmStep.waitBoot, VmStep.aptUpdate] ++
        vm.disk_specs.map VmStep.createScratchDisk ++ [VmStep.burnCpu] := by
  simp [PrepareVm, list_foldl_append, SSH_PORT]

/-! ## C8: load failure is logged and propagated -/

/-- C8: when the snapshot file for a benchmark name is missing or unreadable,
loading logs an error line and propagates the same exception; it never
returns a plan. -/
theorem c8_load_error {ε : Type} (reader : String → Except ε SpecState)
    (tmpdir name : String) (e : ε)
    (h : reader (tmpdir ++ "/" ++ name) = .error e) :
    GetSpecFromFile reader tmpdir name =
      (["Unable to unpickle spec file for benchmark " ++ name ++ "."], .error e) ∧
    ∀ spec, (GetSpecFromFile reader tmpdir name).2 ≠ .ok spec := by
  simp only [GetSpecFromFile]
  rw [h]
  refine ⟨rfl, ?_⟩
  intro spec hspec
  cases hspec

/-- Witness for C8: a concrete unreadable path. -/
theorem c8_load_error_witness :
    GetSpecFromFile failingReader "/tmp" "iperf" =
      (["Unable to unpickle spec file for benchmark " ++ "iperf" ++ "."],
        .error ("read failure: " ++ ("/tmp" ++ "/" ++ "iperf"))) ∧
    ∀ spec, (GetSpecFromFile failingReader "/tmp" "iperf").2 ≠ .ok spec :=
  c8_load_error failingReader "/tmp" "iperf" _ rfl

/-! ## C9: snapshot round trip -/

/-- C9: saving a plan and loading it back by the same benchmark name yields a
plan with the same VM count, zone set and node-group membership. -/
theorem c9_snapshot_roundtrip (fs : List (String × SpecState)) (s : SpecState)
    (tmpdir name : String) (h : s.file_name = tmpdir ++ "/" ++ name) :
    GetSpecFromFile (fsReader (PickleSpec fs s)) tmpdir name = ([], .ok s) ∧
    ∀ loaded, (GetSpecFromFile (fsReader (PickleSpec fs s)) tmpdir name).2 = .ok loaded →
      loaded.vms.length = s.vms.length ∧
      loaded.zones = s.zones ∧
      loaded.vm_dict.map (fun p => (p.1, p.2.length)) =
        s.vm_dict.map (fun p => (p.1, p.2.length)) := by
  have h1 : GetSpecFromFile (fsReader (PickleSpec fs s)) tmpdir name = ([], .ok s) := by
    unfold GetSpecFromFile fsReader PickleSpec
    rw [← h]
    simp [List.lookup]
  refine ⟨h1, ?_⟩
  intro loaded h2
  rw [h1] at h2
  cases h2
  exact ⟨rfl, rfl, rfl⟩

/-- Witness for C9 at a concrete plan and benchmark name. -/
theorem c9_snapshot_roundtrip_witness :
    GetSpecFromFile (fsReader (PickleSpec [] examplePlan)) "/tmp" "iperf" =
      ([], .ok examplePlan) :=
  (c9_snapshot_roundtrip [] examplePlan "/tmp" "iperf" rfl).1

/-! ## Delete lifecycle: shape lemma, C2, C10 -/

theorem delete_shape (run_stage : String) (fail : ProviderOp → Bool) (s : SpecState) :
    ((run_stage ∉ ["all", "cleanup"] ∨ s.deleted = true) ∧
      Delete run_stage fail s = ⟨[], s, true⟩) ∨
    (run_stage ∈ ["all", "cleanup"] ∧ s.deleted = false ∧
      ((∃ ops, Delete run_stage fail s = ⟨ops, s, false⟩) ∨
       (∃ ops, Delete run_stage fail s = ⟨ops, { s with deleted := true }, true⟩))) := by
  unfold Delete
  split
  case isTrue h =>
    left
    refine ⟨?_, rfl⟩
    rcases h with h | h
    · exact Or.inl h
    · exact Or.inr (by simpa using h)
  case isFalse h =>
    right
    obtain ⟨h1, h2⟩ := not_or.mp h
    refine ⟨not_not.mp h1, by simpa using h2, ?_⟩
    split
    · exact Or.inl ⟨_, rfl⟩
    · split
      · exact Or.inr ⟨_, rfl⟩
      · exact Or.inl ⟨_, rfl⟩

/-- C2 counterexample: on a plan with one VM, with the firewall revoke
failing, the first Delete call raises before setting the deleted flag, and a
second identical call performs provider operations again — refuting that a
second call is a guaranteed no-op regardless of prior partial failure. -/
theorem c2_counterexample :
    (Delete "all" failFirewall examplePlan).ok = false ∧
    (Delete "all" failFirewall examplePlan).state.deleted = false ∧
    (Delete "all" failFirewall (Delete "all" failFirewall examplePlan).state).ops ≠ [] := by
  refine ⟨rfl, rfl, ?_⟩
  decide

/-- C2 (amended): Delete is a no-op whenever the run stage is not
cleanup-eligible or the plan is already deleted; and when a first call in a
cleanup-eligible stage on a not-yet-deleted plan returns without raising,
any second call performs no provider operations and leaves the plan
unchanged. -/
theorem c2_delete_idempotent
    (rsA : String) (failA : ProviderOp → Bool) (sA : SpecState)
    (rsB rsB2 : String) (failB failB2 : ProviderOp → Bool) (sB : SpecState)
    (hA : rsA ∉ ["all", "cleanup"] ∨ sA.deleted = true)
    (hB1 : rsB ∈ ["all", "cleanup"]) (hB2 : sB.deleted = false)
    (hB3 : (Delete rsB failB sB).ok = true) :
    Delete rsA failA sA = ⟨[], sA, true⟩ ∧
    Delete rsB2 failB2 (Delete rsB failB sB).state =
      ⟨[], (Delete rsB failB sB).state, true⟩ := by
  constructor
  · rcases delete_shape rsA failA sA with ⟨_, heq⟩ | ⟨h1, h2, _⟩
    · exact heq
    · rcases hA with hA | hA
      · exact absurd h1 hA
      · rw [h2] at hA
        simp at hA
  · have hdel : (Delete rsB failB sB).state.deleted = true := by
      rcases delete_shape rsB failB sB with ⟨hc | hc, _⟩ | ⟨_, _, ⟨ops, heq⟩ | ⟨ops, heq⟩⟩
      · exact absurd hB1 hc
      · rw [hB2] at hc
        simp at hc
      · rw [heq] at hB3
        simp at hB3
      · rw [heq]
    rcases delete_shape rsB2 failB2 (Delete rsB failB sB).state with ⟨_, heq⟩ | ⟨_, hfalse, _⟩
    · exact heq
    · rw [hdel] at hfalse
      simp at hfalse

/-- Witness for C2 at concrete inputs: a non-cleanup stage is a no-op, and
after a successful first Delete a second call is a no-op even under a
then-failing provider. -/
theorem c2_delete_idempotent_witness :
    Delete "run" failFirewall examplePlan = ⟨[], examplePlan, true⟩ ∧
    Delete "cleanup" failFirewall (Delete "all" noFail examplePlan).state =
      ⟨[], (Delete "all" noFail examplePlan).state, true⟩ :=
  c2_delete_idempotent "run" failFirewall examplePlan "all" "cleanup" noFail failFirewall
    examplePlan (Or.inl (by decide)) (by decide) rfl rfl

/-- C10: a completed Delete (cleanup-eligible stage, not yet deleted,
returned normally) changes only the deleted flag: the vms list, group
index, networks map, firewall and file name are unchanged. -/
theorem c10_delete_frame (run_stage : String) (fail : ProviderOp → Bool) (s : SpecState)
    (h1 : run_stage ∈ ["all", "cleanup"]) (h2 : s.deleted = false)
    (h3 : (Delete run_stage fail s).ok = true) :
    (Delete run_stage fail s).state = { s with deleted := true } ∧
    (Delete run_stage fail s).state.vms = s.vms ∧
    (Delete run_stage fail s).state.vm_dict = s.vm_dict ∧
    (Delete run_stage fail s).state.networks = s.networks ∧
    (Delete run_stage fail s).state.firewall = s.firewall ∧
    (Delete run_stage fail s).state.file_name = s.file_name ∧
    (Delete run_stage fail s).state.deleted = true := by
  rcases delete_shape run_stage fail s with ⟨hc | hc, _⟩ | ⟨_, _, ⟨ops, heq⟩ | ⟨ops, heq⟩⟩
  · exact absurd h1 hc
  · rw [h2] at hc
    simp at hc
  · rw [heq] at h3
    simp at h3
  · rw [heq]
    exact ⟨rfl, rfl, rfl, rfl, rfl, rfl, rfl⟩

/-- Witness for C10 at a concrete plan and a successful delete. -/
theorem c10_delete_frame_witness :
    (Delete "all" noFail examplePlan).state = { examplePlan with deleted := true } :=
  (c10_delete_frame "all" noFail examplePlan (by decide) rfl rfl).1

/-! ## C1: zone assignment in flag-driven mode -/

theorem exceptBind_ok {ε α β : Type} (a : α) (f : α → Except ε β) :
    (Except.ok a >>= f : Except ε β) = f a := rfl

theorem exceptBind_error {ε α β : Type} (e : ε) (f : α → Except ε β) :
    (Except.error e >>= f : Except ε β) = Except.error e := rfl

theorem DEFAULTS_valid {cloud : String} {d : ProviderDefaults}
    (h : DEFAULTS cloud = .ok d) : cloud = GCP ∨ cloud = AZURE ∨ cloud = AWS := by
  unfold DEFAULTS at h
  split_ifs at h with h1 h2 h3
  · exact Or.inl h1
  · exact Or.inr (Or.inl h2)
  · exact Or.inr (Or.inr h3)

theorem CLASSES_ok_of_valid {cloud : String}
    (h : cloud = GCP ∨ cloud = AZURE ∨ cloud = AWS) :
    ∃ cls, CLASSES cloud = .ok cls := by
  rcases h with rfl | rfl | rfl <;> exact ⟨_, rfl⟩

theorem CLASSES_vm_spec {cloud : String} {cls : ProviderClasses}
    (h : CLASSES cloud = .ok cls) (spec : BaseVirtualMachineSpec) :
    (cls.virtual_machine spec).vm_spec = spec := by
  unfold CLASSES at h
  split_ifs at h <;> cases h <;> rfl

theorem createVM_ok (s : SpecState) (z : String) (cls : ProviderClasses)
    (m : String) (img : Option String)
    (hst : s.static_vms = []) (hcls : CLASSES s.cloud = .ok cls)
    (hmt : s.machine_type = .scalar m) (himg : s.image = .scalar img)
    (hz : z.isEmpty = false) :
    ∃ s' vm, CreateVirtualMachine s (some z) = .ok (s', vm) ∧
      vm.vm_spec.zone = z ∧
      s'.cloud = s.cloud ∧ s'.zones = s.zones ∧ s'.static_vms = [] ∧
      s'.machine_type = s.machine_type ∧ s'.image = s.image ∧
      s'.vm_dict = s.vm_dict ∧ s'.num_vms = s.num_vms := by
  have hrz : resolveZone s (some z) = .ok z := by
    unfold resolveZone
    simp only [hz, Bool.false_eq_true, if_false]
  unfold CreateVirtualMachine
  rw [hst]
  simp only [hcls, exceptBind_ok, hrz]
  unfold mkVmInZone
  simp only [hmt, himg, exceptBind_ok]
  cases hn : s.networks.lookup z with
  | some net =>
    exact ⟨_, _, rfl, by rw [CLASSES_vm_spec hcls], rfl, rfl, hst, rfl, rfl,
      rfl, rfl⟩
  | none =>
    exact ⟨_, _, rfl, by rw [CLASSES_vm_spec hcls], rfl, rfl, hst, rfl, rfl,
      rfl, rfl⟩

theorem buildVms_zones (idxs : List Nat) (s : SpecState) (cls : ProviderClasses)
    (m : String) (img : Option String)
    (hst : s.static_vms = []) (hcls : CLASSES s.cloud = .ok cls)
    (hmt : s.machine_type = .scalar m) (himg : s.image = .scalar img)
    (hz : ∀ i ∈ idxs, (zoneAt s.zones i).isEmpty = false) :
    ∃ s' vms, buildVms s idxs = .ok (s', vms) ∧
      vms.map (fun vm => vm.vm_spec.zone) = idxs.map (zoneAt s.zones) ∧
      s'.cloud = s.cloud ∧ s'.zones = s.zones ∧ s'.static_vms = [] ∧
      s'.machine_type = s.machine_type ∧ s'.image = s.image ∧
      s'.vm_dict = s.vm_dict ∧ s'.num_vms = s.num_vms := by
  induction idxs generalizing s with
  | nil =>
    exact ⟨s, [], rfl, by simp, rfl, rfl, hst, rfl, rfl, rfl, rfl⟩
  | cons i rest ih =>
    obtain ⟨s1, vm, hcvm, hzone, hcl1, hzs1, hst1, hmt1, himg1, hvd1, hnv1⟩ :=
      createVM_ok s (zoneAt s.zones i) cls m img hst hcls hmt himg
        (hz i (List.mem_cons_self i rest))
    obtain ⟨s2, vms, hrest, hmap, hcl2, hzs2, hst2, hmt2, himg2, hvd2, hnv2⟩ :=
      ih s1 hst1 (by rw [hcl1]; exact hcls) (by rw [hmt1]; exact hmt)
        (by rw [himg1]; exact himg)
        (by intro j hj; rw [hzs1]; exact hz j (List.mem_cons_of_mem i hj))
    refine ⟨s2, vm :: vms, ?_, ?_, ?_, ?_, hst2, ?_, ?_, ?_, ?_⟩
    · unfold buildVms
      simp only [hcvm, exceptBind_ok, hrest]
    · simp only [List.map_cons, hzone, hmap, hzs1, List.map]
    · rw [hcl2, hcl1]
    · rw [hzs2, hzs1]
    · rw [hmt2, hmt1]
    · rw [himg2, himg1]
    · rw [hvd2, hvd1]
    · rw [hnv2, hnv1]

theorem addScratchDisks_specs (cloud : String) (size : Nat) (idxs : List Nat)
    (vms vms' : List VM) (h : addScratchDisks cloud size idxs vms = .ok vms') :
    vms'.map (fun vm => vm.vm_spec) = vms.map (fun vm => vm.vm_spec) := by
  induction idxs generalizing vms with
  | nil =>
    unfold addScratchDisks at h
    cases h
    rfl
  | cons i rest ih =>
    unfold addScratchDisks at h
    cases ht : DISK_TYPE cloud STANDARD with
    | error e =>
      rw [ht, exceptBind_error] at h
      cases h
    | ok t =>
      rw [ht, exceptBind_ok] at h
      have h2 := ih _ h
      rw [h2, List.map_map]
      rfl

theorem zoneAt_mem (Z : List String) (hZ : Z ≠ []) (i : Nat) : zoneAt Z i ∈ Z := by
  unfold zoneAt
  have h0 : 0 < Z.length := List.length_pos.mpr hZ
  have hlt : min i (Z.length - 1) < Z.length :=
    lt_of_le_of_lt (min_le_right _ _) (Nat.sub_lt h0 Nat.one_pos)
  rw [List.getD_eq_getElem?_getD, List.getElem?_eq_getElem hlt]
  exact List.getElem_mem hlt

theorem DISK_TYPE_standard_ok {cloud : String}
    (h : cloud = GCP ∨ cloud = AZURE ∨ cloud = AWS) :
    ∃ t, DISK_TYPE cloud STANDARD = .ok t := by
  rcases h with rfl | rfl | rfl <;> exact ⟨_, rfl⟩

theorem addScratchDisks_ok (cloud : String) (size : Nat) (idxs : List Nat)
    (vms : List VM) (t : Option String) (ht : DISK_TYPE cloud STANDARD = .ok t) :
    ∃ vms', addScratchDisks cloud size idxs vms = .ok vms' := by
  induction idxs generalizing vms with
  | nil => exact ⟨vms, rfl⟩
  | cons i rest ih =>
    unfold addScratchDisks
    rw [ht, exceptBind_ok]
    exact ih _

theorem init_ok_shape (flags : Flags) (bi : BenchmarkInfo) (tmpdir : String)
    (defaults : ProviderDefaults) (cls : ProviderClasses)
    (hD : DEFAULTS flags.cloud = .ok defaults)
    (hcls : CLASSES flags.cloud = .ok cls)
    (hzne : flags.zones.isEmpty = false)
    (hz : ∀ i, (zoneAt flags.zones i).isEmpty = false) :
    ∃ s, initHomogeneous flags bi tmpdir [] = .ok s ∧
      s.vms.map (fun vm => vm.vm_spec.zone) =
        (List.range (match bi.num_machines with
          | none => flags.num_vms
          | some n => n)).map (zoneAt flags.zones) := by
  obtain ⟨N, hN⟩ : ∃ N : Nat,
      (match bi.num_machines with | none => flags.num_vms | some n => n) = N := ⟨_, rfl⟩
  rw [hN]
  have hS0z : ∀ n, (initState flags defaults n []).zones = flags.zones := by
    intro n
    unfold initState
    simp [hzne]
  obtain ⟨s1, vms, hbuild, hmap, hcl1, hzs1, hst1, hmt1, himg1, hvd1, hnv1⟩ :=
    buildVms_zones (List.range N) (initState flags defaults N []) cls _ _ rfl hcls rfl rfl
      (by intro i _; rw [hS0z]; exact hz i)
  obtain ⟨t, ht⟩ := DISK_TYPE_standard_ok (DEFAULTS_valid hD)
  obtain ⟨vmsF, hadd⟩ :=
    addScratchDisks_ok flags.cloud flags.scratch_disk_size (List.range bi.scratch_disk) vms t ht
  refine ⟨{ s1 with
            vms := vmsF
            vm_dict := dictSet s1.vm_dict "default" vmsF
            firewall := some (cls.firewall flags.project)
            file_name := tmpdir ++ "/" ++ bi.name }, ?_, ?_⟩
  · unfold initHomogeneous
    simp only [hD, exceptBind_ok, hN, hbuild, hadd, hcls]
  · have hspec := addScratchDisks_specs _ _ _ _ _ hadd
    have h1 : vmsF.map (fun vm => vm.vm_spec.zone) = vms.map (fun vm => vm.vm_spec.zone) := by
      calc vmsF.map (fun vm => vm.vm_spec.zone)
          = (vmsF.map (fun vm => vm.vm_spec)).map (fun sp => sp.zone) := by
            rw [List.map_map]
            rfl
        _ = (vms.map (fun vm => vm.vm_spec)).map (fun sp => sp.zone) := by rw [hspec]
        _ = vms.map (fun vm => vm.vm_spec.zone) := by
            rw [List.map_map]
            rfl
    show vmsF.map (fun vm => vm.vm_spec.zone) = (List.range N).map (zoneAt flags.zones)
    rw [h1, hmap, hS0z]

/-- C1 (amended): in flag-driven mode with no static override, for every VM
count N and non-empty zone list Z all of whose entries are non-empty
strings, the VM at index i is assigned zone Z at index min(i, len(Z)-1) for
all i below N; the last zone absorbs the remainder, with no wraparound. -/
theorem c1_zone_assignment (flags : Flags) (bi : BenchmarkInfo) (tmpdir : String)
    (s : SpecState)
    (hz1 : flags.zones ≠ []) (hz2 : ∀ z ∈ flags.zones, z ≠ "")
    (hinit : initHomogeneous flags bi tmpdir [] = .ok s) :
    s.vms.length = (match bi.num_machines with
      | none => flags.num_vms
      | some n => n) ∧
    ∀ i (h : i < s.vms.length),
      (s.vms.get ⟨i, h⟩).vm_spec.zone =
        flags.zones.getD (min i (flags.zones.length - 1)) "" := by
  have hzne : flags.zones.isEmpty = false := by
    cases hc : flags.zones with
    | nil => exact absurd hc hz1
    | cons a l => rfl
  have hzAt : ∀ i, (zoneAt flags.zones i).isEmpty = false := by
    intro i
    have hm := zoneAt_mem flags.zones hz1 i
    have hne := hz2 _ hm
    rw [Bool.eq_false_iff]
    intro hc
    exact hne ((String.isEmpty_iff _).mp hc)
  cases hD : DEFAULTS flags.cloud with
  | error e =>
    unfold initHomogeneous at hinit
    simp only [hD, exceptBind_error] at hinit
    exact Except.noConfusion hinit
  | ok defaults =>
    obtain ⟨cls, hcls⟩ := CLASSES_ok_of_valid (DEFAULTS_valid hD)
    obtain ⟨sF, hF, hmapF⟩ := init_ok_shape flags bi tmpdir defaults cls hD hcls hzne hzAt
    rw [hinit] at hF
    injection hF with hsf
    subst hsf
    have hlen : s.vms.length =
        (match bi.num_machines with | none => flags.num_vms | some n => n) := by
      have := congrArg List.length hmapF
      simpa using this
    refine ⟨hlen, ?_⟩
    intro i h
    have hiN : i < (match bi.num_machines with | none => flags.num_vms | some n => n) := by
      rw [← hlen]
      exact h
    have hq := congrArg (fun l => l[i]?) hmapF
    simp only [List.getElem?_map, List.getElem?_eq_getElem h,
      List.getElem?_range hiN, Option.map_some'] at hq
    exact Option.some.inj hq

/-- Witness for C1 at the concrete example: five VMs over zones z1, z2. -/
theorem c1_zone_assignment_witness :
    ∃ s, initHomogeneous exampleFlags exampleInfo "/tmp" [] = Except.ok s ∧
      s.vms.length = 5 ∧
      ∀ i (h : i < s.vms.length),
        (s.vms.get ⟨i, h⟩).vm_spec.zone =
          exampleFlags.zones.getD (min i (exampleFlags.zones.length - 1)) "" := by
  obtain ⟨hlen, hidx⟩ :=
    c1_zone_assignment exampleFlags exampleInfo "/tmp" _ (by decide) (by decide) rfl
  exact ⟨_, rfl, hlen, hidx⟩

/-- C1 counterexample: with zone list [a, <empty>] and two VMs, the claim
demands the empty string for VM 1, but the source falls back from a falsy
zone argument to zones[0], assigning a. -/
theorem c1_counterexample :
    ∃ s, initHomogeneous flagsEmptyZone infoTwoVms "/tmp" [] = Except.ok s ∧
      ∃ h : 1 < s.vms.length,
        (s.vms.get ⟨1, h⟩).vm_spec.zone ≠
          flagsEmptyZone.zones.getD (min 1 (flagsEmptyZone.zones.length - 1)) "" := by
  refine ⟨_, rfl, by decide, by decide⟩

/-! ## Association-list lemmas for the dictionary model -/

theorem lookup_append_some {α : Type} (l r : List (String × α)) (k : String) (v : α)
    (h : l.lookup k = some v) : (l ++ r).lookup k = some v := by
  induction l with
  | nil => simp [List.lookup] at h
  | cons p rest ih =>
    cases hk : (k == p.1) with
    | true =>
      simp only [List.cons_append, List.lookup, hk] at h ⊢
      exact h
    | false =>
      simp only [List.cons_append, List.lookup, hk] at h ⊢
      exact ih h

theorem lookup_append_none {α : Type} (l r : List (String × α)) (k : String)
    (h : l.lookup k = none) : (l ++ r).lookup k = r.lookup k := by
  induction l with
  | nil => simp
  | cons p rest ih =>
    cases hk : (k == p.1) with
    | true =>
      simp only [List.lookup, hk] at h
      exact Option.noConfusion h
    | false =>
      simp only [List.cons_append, List.lookup, hk] at h ⊢
      exact ih h

theorem not_mem_keys_of_lookup_none {α : Type} (l : List (String × α)) (k : String)
    (h : l.lookup k = none) : k ∉ l.map Prod.fst := by
  induction l with
  | nil => simp
  | cons p rest ih =>
    cases hk : (k == p.1) with
    | true =>
      simp only [List.lookup, hk] at h
      exact Option.noConfusion h
    | false =>
      simp only [List.lookup, hk] at h
      simp only [List.map_cons, List.mem_cons]
      rintro (hh | hh)
      · exact absurd (beq_iff_eq.mpr hh) (by rw [hk]; exact Bool.false_ne_true)
      · exact ih h hh

theorem any_beq_of_lookup_isSome {α : Type} (d : List (String × α)) (k : String)
    (h : (d.lookup k).isSome) : d.any (fun p => p.1 == k) = true := by
  induction d with
  | nil => simp [List.lookup] at h
  | cons p rest ih =>
    by_cases hpk : p.1 = k
    · simp [hpk]
    · have hk : (k == p.1) = false := beq_eq_false_iff_ne.mpr (fun hh => hpk hh.symm)
      have hk2 : (p.1 == k) = false := beq_eq_false_iff_ne.mpr hpk
      simp only [List.lookup, hk] at h
      simp only [List.any_cons, hk2, Bool.false_or]
      exact ih h

theorem lookup_map_update {α : Type} (d : List (String × α)) (k : String) (v : α)
    (h : (d.lookup k).isSome) :
    (d.map (fun p => if p.1 == k then (k, v) else p)).lookup k = some v := by
  induction d with
  | nil => simp [List.lookup] at h
  | cons p rest ih =>
    by_cases hpk : p.1 = k
    · have hb : (p.1 == k) = true := beq_iff_eq.mpr hpk
      rw [List.map_cons, if_pos hb]
      simp [List.lookup]
    · have hk : (k == p.1) = false := beq_eq_false_iff_ne.mpr (fun hh => hpk hh.symm)
      have hk2 : ¬((p.1 == k) = true) := by
        rw [beq_eq_false_iff_ne.mpr hpk]
        exact Bool.false_ne_true
      rw [List.map_cons, if_neg hk2]
      simp only [List.lookup, hk] at h ⊢
      exact ih h

theorem lookup_dictSet {α : Type} (d : List (String × α)) (k : String) (v : α)
    (h : (d.lookup k).isSome) : (dictSet d k v).lookup k = some v := by
  unfold dictSet
  rw [if_pos (any_beq_of_lookup_isSome d k h)]
  exact lookup_map_update d k v h

/-! ## C4 and C5: topology parsing and network memoization -/

theorem CLASSES_vm_disks {cloud : String} {cls : ProviderClasses}
    (h : CLASSES cloud = .ok cls) (spec : BaseVirtualMachineSpec) :
    (cls.virtual_machine spec).disk_specs = [] := by
  unfold CLASSES at h
  split_ifs at h <;> cases h <;> rfl

theorem noteZone_fields (s : SpecState) (zone : String) :
    (noteZone s zone).vm_dict = s.vm_dict ∧ (noteZone s zone).networks = s.networks ∧
    (noteZone s zone).cloud = s.cloud ∧ (noteZone s zone).vms = s.vms ∧
    (noteZone s zone).image = s.image ∧ (noteZone s zone).machine_type = s.machine_type := by
  unfold noteZone
  split <;> exact ⟨rfl, rfl, rfl, rfl, rfl, rfl⟩

theorem noteImage_fields (s : SpecState) (image : String) (s2 : SpecState)
    (h : noteImage s image = .ok s2) :
    s2.vm_dict = s.vm_dict ∧ s2.networks = s.networks ∧ s2.cloud = s.cloud ∧
    s2.vms = s.vms ∧ s2.machine_type = s.machine_type := by
  unfold noteImage at h
  cases him : s.image with
  | scalar a =>
    rw [him] at h
    exact Except.noConfusion h
  | list l =>
    rw [him] at h
    simp only [Except.ok.injEq] at h
    subst h
    split <;> exact ⟨rfl, rfl, rfl, rfl, rfl⟩

theorem noteMachineType_fields (s : SpecState) (vm_type : String) (s2 : SpecState)
    (h : noteMachineType s vm_type = .ok s2) :
    s2.vm_dict = s.vm_dict ∧ s2.networks = s.networks ∧ s2.cloud = s.cloud ∧
    s2.vms = s.vms := by
  unfold noteMachineType at h
  cases hmt : s.machine_type with
  | scalar a =>
    rw [hmt] at h
    exact Except.noConfusion h
  | list l =>
    rw [hmt] at h
    simp only [Except.ok.injEq] at h
    subst h
    split <;> exact ⟨rfl, rfl, rfl, rfl⟩

theorem ensureNetwork_fields (s : SpecState) (cls : ProviderClasses) (zone : String) :
    (ensureNetwork s cls zone).vm_dict = s.vm_dict ∧
    (ensureNetwork s cls zone).cloud = s.cloud ∧
    (ensureNetwork s cls zone).vms = s.vms ∧
    ((ensureNetwork s cls zone).networks = s.networks ∨
      (s.networks.lookup zone = none ∧
        (ensureNetwork s cls zone).networks = s.networks ++ [(zone, cls.network zone)])) := by
  unfold ensureNetwork
  cases hn : s.networks.lookup zone with
  | some net => exact ⟨rfl, rfl, rfl, Or.inl rfl⟩
  | none => exact ⟨rfl, rfl, rfl, Or.inr ⟨rfl, rfl⟩⟩

theorem attachDisks_shape (cloud : String) (opts : List (String × String))
    (vms vms2 : List VM) (h : attachDisks cloud opts vms = .ok vms2) :
    ∃ specs : List BaseDiskSpec,
      specs.length = (opts.filter (fun p => pyStartsWith pdOptionMarker p.1)).length ∧
      vms2 = vms.map (fun vm => { vm with disk_specs := vm.disk_specs ++ specs }) := by
  induction opts generalizing vms with
  | nil =>
    unfold attachDisks at h
    simp only [Except.ok.injEq] at h
    subst h
    refine ⟨[], by simp, ?_⟩
    simp
  | cons p rest ih =>
    obtain ⟨k, v⟩ := p
    unfold attachDisks at h
    cases hpd : pyStartsWith pdOptionMarker k with
    | false =>
      rw [hpd] at h
      simp only [Bool.false_eq_true, if_false] at h
      obtain ⟨specs, hlen, heq⟩ := ih vms h
      refine ⟨specs, ?_, heq⟩
      simp [List.filter_cons, hpd, hlen]
    | true =>
      rw [hpd] at h
      simp only [if_true] at h
      cases hsp : pySplit ':' v with
      | nil =>
        simp only [hsp] at h
        exact Except.noConfusion h
      | cons sz t1 =>
        cases t1 with
        | nil =>
          simp only [hsp] at h
          exact Except.noConfusion h
        | cons dt t2 =>
          cases t2 with
          | nil =>
            simp only [hsp] at h
            exact Except.noConfusion h
          | cons mnt t3 =>
            cases t3 with
            | cons x t4 =>
              simp only [hsp] at h
              exact Except.noConfusion h
            | nil =>
              simp only [hsp] at h
              cases hto : pyParseNat sz with
              | none =>
                simp only [hto] at h
                exact Except.noConfusion h
              | some disk_size =>
                simp only [hto] at h
                cases hdt : DISK_TYPE cloud dt with
                | error e =>
                  simp only [hdt, exceptBind_error] at h
                  exact Except.noConfusion h
                | ok t =>
                  simp only [hdt, exceptBind_ok] at h
                  obtain ⟨specs, hlen, heq⟩ := ih _ h
                  refine ⟨⟨disk_size, t, mnt⟩ :: specs, ?_, ?_⟩
                  · simp [List.filter_cons, hpd, hlen]
                  · rw [heq, List.map_map]
                    apply List.map_congr_left
                    intro vm _
                    simp [Function.comp]

theorem mkVmInZone_networks (s : SpecState) (cls : ProviderClasses) (zone : String)
    (s2 : SpecState) (vm : VM) (h : mkVmInZone s cls zone = .ok (s2, vm)) :
    s2.networks = s.networks ∨
      s.networks.lookup zone = none ∧
        s2.networks = s.networks ++ [(zone, cls.network zone)] := by
  unfold mkVmInZone at h
  cases hmt : s.machine_type with
  | list l =>
    simp only [hmt, exceptBind_error] at h
    exact Except.noConfusion h
  | scalar m =>
    simp only [hmt, exceptBind_ok] at h
    cases him : s.image with
    | list l =>
      simp only [him, exceptBind_error] at h
      exact Except.noConfusion h
    | scalar img =>
      simp only [him, exceptBind_ok] at h
      cases hn : s.networks.lookup zone with
      | some net =>
        simp only [hn, Except.ok.injEq, Prod.mk.injEq] at h
        obtain ⟨h1, h2⟩ := h
        exact Or.inl (by rw [← h1])
      | none =>
        simp only [hn, Except.ok.injEq, Prod.mk.injEq] at h
        obtain ⟨h1, h2⟩ := h
        exact Or.inr ⟨rfl, by rw [← h1]⟩

theorem CVM_networks (s : SpecState) (oz : Option String) (s2 : SpecState) (vm : VM)
    (hok : CreateVirtualMachine s oz = .ok (s2, vm)) :
    s2.networks = s.networks ∨
      ∃ z net, s.networks.lookup z = none ∧ s2.networks = s.networks ++ [(z, net)] := by
  unfold CreateVirtualMachine at hok
  cases hsv : s.static_vms with
  | cons vm0 rest =>
    simp only [hsv, Except.ok.injEq, Prod.mk.injEq] at hok
    obtain ⟨h1, h2⟩ := hok
    exact Or.inl (by rw [← h1])
  | nil =>
    simp only [hsv] at hok
    cases hcl : CLASSES s.cloud with
    | error e =>
      simp only [hcl, exceptBind_error] at hok
      exact Except.noConfusion hok
    | ok cls =>
      simp only [hcl, exceptBind_ok] at hok
      cases hrz : resolveZone s oz with
      | error e =>
        simp only [hrz, exceptBind_error] at hok
        exact Except.noConfusion hok
      | ok z =>
        simp only [hrz, exceptBind_ok] at hok
        rcases mkVmInZone_networks s cls z s2 vm hok with hnet | ⟨hnone, hnet⟩
        · exact Or.inl hnet
        · exact Or.inr ⟨z, cls.network z, hnone, hnet⟩

theorem CVMFNS_shape (s : SpecState) (sec : List (String × String)) (name : String)
    (s2 : SpecState) (hok : CreateVirtualMachineFromNodeSection s sec name = .ok s2) :
    (s2.networks = s.networks ∨
      ∃ z net, s.networks.lookup z = none ∧ s2.networks = s.networks ++ [(z, net)]) ∧
    (∀ g, s.vm_dict.lookup name = some g →
      ∃ newVms specs,
        s2.vm_dict.lookup name = some (g ++ newVms) ∧
        specs.length = (sec.filter (fun p => pyStartsWith pdOptionMarker p.1)).length ∧
        ∀ vm ∈ newVms, vm.disk_specs = specs) := by
  unfold CreateVirtualMachineFromNodeSection at hok
  cases hz : sectionZone s sec with
  | error e =>
    simp only [hz, exceptBind_error] at hok
    exact Except.noConfusion hok
  | ok z =>
  simp only [hz, exceptBind_ok] at hok
  cases hi : sec.lookup "image" with
  | none =>
    simp only [hi, exceptBind_error] at hok
    exact Except.noConfusion hok
  | some img =>
  simp only [hi, exceptBind_ok] at hok
  cases hni : noteImage (noteZone s z) img with
  | error e =>
    simp only [hni, exceptBind_error] at hok
    exact Except.noConfusion hok
  | ok sB =>
  simp only [hni, exceptBind_ok] at hok
  cases hv : sec.lookup "vm_type" with
  | none =>
    simp only [hv, exceptBind_error] at hok
    exact Except.noConfusion hok
  | some mt =>
  simp only [hv, exceptBind_ok] at hok
  cases hnm : noteMachineType sB mt with
  | error e =>
    simp only [hnm, exceptBind_error] at hok
    exact Except.noConfusion hok
  | ok sC =>
  simp only [hnm, exceptBind_ok] at hok
  cases hcl : CLASSES sC.cloud with
  | error e =>
    simp only [hcl, exceptBind_error] at hok
    exact Except.noConfusion hok
  | ok cls =>
  simp only [hcl, exceptBind_ok] at hok
  cases hnet : (ensureNetwork sC cls z).networks.lookup z with
  | none =>
    simp only [hnet, exceptBind_error] at hok
    exact Except.noConfusion hok
  | some net =>
  simp only [hnet, exceptBind_ok] at hok
  cases hc : sec.lookup "count" with
  | none =>
    simp only [hc, exceptBind_error] at hok
    exact Except.noConfusion hok
  | some cstr =>
  simp only [hc, exceptBind_ok] at hok
  cases hti : pyParseInt cstr with
  | none =>
    simp only [hti, exceptBind_error] at hok
    exact Except.noConfusion hok
  | some cnt =>
  simp only [hti, exceptBind_ok] at hok
  cases hgrp : (ensureNetwork sC cls z).vm_dict.lookup name with
  | none =>
    simp only [hgrp, exceptBind_error] at hok
    exact Except.noConfusion hok
  | some grp =>
  simp only [hgrp, exceptBind_ok] at hok
  cases haD : attachDisks (ensureNetwork sC cls z).cloud sec
      (List.replicate cnt.toNat
        (cls.virtual_machine ⟨(ensureNetwork sC cls z).project, z, mt, some img, net⟩)) with
  | error e =>
    simp only [haD, exceptBind_error] at hok
    exact Except.noConfusion hok
  | ok newVms =>
  simp only [haD, exceptBind_ok, Except.ok.injEq] at hok
  subst hok
  have hZf := noteZone_fields s z
  have hBf := noteImage_fields (noteZone s z) img sB hni
  have hCf := noteMachineType_fields sB mt sC hnm
  have hDf := ensureNetwork_fields sC cls z
  have hnchain : sC.networks = s.networks := by
    rw [hCf.2.1, hBf.2.1, hZf.2.1]
  have hvd : (ensureNetwork sC cls z).vm_dict = s.vm_dict := by
    rw [hDf.1, hCf.1, hBf.1, hZf.1]
  constructor
  · show (ensureNetwork sC cls z).networks = s.networks ∨
      ∃ zz nn, s.networks.lookup zz = none ∧
        (ensureNetwork sC cls z).networks = s.networks ++ [(zz, nn)]
    rcases hDf.2.2.2 with hnn | ⟨hnone, hnn⟩
    · left
      rw [hnn, hnchain]
    · right
      refine ⟨z, cls.network z, ?_, ?_⟩
      · rw [← hnchain]
        exact hnone
      · rw [hnn, hnchain]
  · intro g hg
    have hsome : ((ensureNetwork sC cls z).vm_dict.lookup name).isSome := by
      rw [hgrp]
      rfl
    have hgg : grp = g := by
      rw [hvd, hg] at hgrp
      exact (Option.some.inj hgrp).symm
    subst hgg
    obtain ⟨specs, hlen, heq⟩ := attachDisks_shape _ sec _ _ haD
    refine ⟨newVms, specs, ?_, hlen, ?_⟩
    · show (dictSet (ensureNetwork sC cls z).vm_dict name (grp ++ newVms)).lookup name =
        some (grp ++ newVms)
      exact lookup_dictSet _ _ _ hsome
    · intro vm hvm
      rw [heq] at hvm
      obtain ⟨vm0, hvm0, rfl⟩ := List.mem_map.mp hvm
      have hb := List.eq_of_mem_replicate hvm0
      rw [hb, CLASSES_vm_disks hcl, List.nil_append]

theorem netRel_nodup {l l2 : List (String × Network)}
    (h : l2 = l ∨ ∃ z net, l.lookup z = none ∧ l2 = l ++ [(z, net)])
    (hnd : (l.map Prod.fst).Nodup) :
    (l2.map Prod.fst).Nodup ∧
    ∀ z n, l.lookup z = some n → l2.lookup z = some n := by
  rcases h with rfl | ⟨z, net, hnone, rfl⟩
  · exact ⟨hnd, fun z n h => h⟩
  · constructor
    · rw [List.map_append]
      simp [List.nodup_append, hnd, not_mem_keys_of_lookup_none _ _ hnone]
    · intro zz nn hzz
      exact lookup_append_some _ _ _ _ hzz

theorem runOps_networks (ops : List PlanOp) (s s2 : SpecState)
    (hnd : (s.networks.map Prod.fst).Nodup) (hrun : runOps s ops = .ok s2) :
    (s2.networks.map Prod.fst).Nodup ∧
    ∀ z n, s.networks.lookup z = some n → s2.networks.lookup z = some n := by
  induction ops generalizing s with
  | nil =>
    unfold runOps at hrun
    simp only [Except.ok.injEq] at hrun
    subst hrun
    exact ⟨hnd, fun z n h => h⟩
  | cons op rest ih =>
    unfold runOps at hrun
    cases op with
    | createVm oz =>
      cases hcvm : CreateVirtualMachine s oz with
      | error e =>
        simp only [hcvm, exceptBind_error] at hrun
        exact Except.noConfusion hrun
      | ok pr =>
        obtain ⟨s1, vm⟩ := pr
        simp only [hcvm, exceptBind_ok] at hrun
        obtain ⟨h1, h2⟩ := netRel_nodup (CVM_networks s oz s1 vm hcvm) hnd
        obtain ⟨h3, h4⟩ := ih s1 h1 hrun
        exact ⟨h3, fun z n h => h4 z n (h2 z n h)⟩
    | createFromSection sec name =>
      cases hc : CreateVirtualMachineFromNodeSection s sec name with
      | error e =>
        simp only [hc, exceptBind_error] at hrun
        exact Except.noConfusion hrun
      | ok s1 =>
        simp only [hc, exceptBind_ok] at hrun
        obtain ⟨h1, h2⟩ := netRel_nodup (CVMFNS_shape s sec name s1 hc).1 hnd
        obtain ⟨h3, h4⟩ := ih s1 h1 hrun
        exact ⟨h3, fun z n h => h4 z n (h2 z n h)⟩

theorem createVM_network (s : SpecState) (z : String) (cls : ProviderClasses)
    (m : String) (img : Option String) (s2 : SpecState) (vm : VM)
    (hst : s.static_vms = []) (hcls : CLASSES s.cloud = .ok cls)
    (hmt : s.machine_type = .scalar m) (himg : s.image = .scalar img)
    (hz : z.isEmpty = false)
    (hok : CreateVirtualMachine s (some z) = .ok (s2, vm)) :
    (∀ n, s.networks.lookup z = some n →
      s2.networks = s.networks ∧ vm.vm_spec.network = n) ∧
    (s.networks.lookup z = none →
      s2.networks = s.networks ++ [(z, cls.network z)] ∧
      vm.vm_spec.network = cls.network z ∧
      s2.networks.lookup z = some (cls.network z)) := by
  have hrz : resolveZone s (some z) = .ok z := by
    unfold resolveZone
    simp only [hz, Bool.false_eq_true, if_false]
  unfold CreateVirtualMachine at hok
  simp only [hst, hcls, exceptBind_ok, hrz] at hok
  unfold mkVmInZone at hok
  simp only [hmt, himg, exceptBind_ok] at hok
  cases hn : s.networks.lookup z with
  | some net =>
    simp only [hn, Except.ok.injEq, Prod.mk.injEq] at hok
    obtain ⟨h1, h2⟩ := hok
    constructor
    · intro n hnn
      injection hnn with h3
      subst h3
      constructor
      · rw [← h1]
      · rw [← h2, CLASSES_vm_spec hcls]
    · intro hc
      exact Option.noConfusion hc
  | none =>
    simp only [hn, Except.ok.injEq, Prod.mk.injEq] at hok
    obtain ⟨h1, h2⟩ := hok
    constructor
    · intro n hnn
      exact Option.noConfusion hnn
    · intro hc
      refine ⟨by rw [← h1], ?_, ?_⟩
      · rw [← h2, CLASSES_vm_spec hcls]
      · rw [← h1]
        show (s.networks ++ [(z, cls.network z)]).lookup z = some (cls.network z)
        rw [lookup_append_none _ _ _ hn]
        simp [List.lookup]

/-- C4: the topology example — a GCP node section with count 3 and
`pd_scratch0 = "100:ssd:/scratch0"` yields a group of exactly 3 VMs, each
carrying exactly one disk spec of size 100, the provider alias of logical
type ssd, and mount point /scratch0; and in general every key with the
reserved persistent-disk marker yields one disk spec attached to every VM
of the section. -/
theorem c4_topology_disks :
    (∃ s2 newVms,
      CreateVirtualMachineFromNodeSection exampleTopoState sectionC4 "g" = .ok s2 ∧
      s2.vm_dict.lookup "g" = some newVms ∧
      newVms.length = 3 ∧
      DISK_TYPE exampleTopoState.cloud SSD = .ok (some "pd-ssd") ∧
      ∀ vm ∈ newVms, vm.disk_specs = [⟨100, some "pd-ssd", "/scratch0"⟩]) ∧
    (∀ s sec name s2 g,
      CreateVirtualMachineFromNodeSection s sec name = .ok s2 →
      s.vm_dict.lookup name = some g →
      ∃ newVms specs,
        s2.vm_dict.lookup name = some (g ++ newVms) ∧
        specs.length = (sec.filter (fun p => pyStartsWith pdOptionMarker p.1)).length ∧
        ∀ vm ∈ newVms, vm.disk_specs = specs) := by
  constructor
  · refine ⟨_, _, rfl, rfl, rfl, rfl, ?_⟩
    decide
  · intro s sec name s2 g hok hg
    exact (CVMFNS_shape s sec name s2 hok).2 g hg

/-- Witness for C4: the general clause applied at the concrete example
section. -/
theorem c4_topology_disks_witness :
    ∃ s2, CreateVirtualMachineFromNodeSection exampleTopoState sectionC4 "g" = .ok s2 ∧
      ∃ newVms specs,
        s2.vm_dict.lookup "g" = some ([] ++ newVms) ∧
        specs.length =
          (sectionC4.filter (fun p => pyStartsWith pdOptionMarker p.1)).length ∧
        ∀ vm ∈ newVms, vm.disk_specs = specs := by
  refine ⟨_, rfl, ?_⟩
  exact c4_topology_disks.2 exampleTopoState sectionC4 "g" _ [] rfl rfl

/-- C5: across any sequence of VM-creating calls the networks map keeps at
most one Network per zone (its keys stay nodup) and an existing entry for a
zone is never replaced; moreover a single VM creation in a fresh zone
constructs and memoizes exactly one Network for that zone and hands it to
the VM, while a VM creation in an already-known zone leaves the map
unchanged and hands the VM that same memoized Network. -/
theorem c5_network_memoized (s : SpecState) (ops : List PlanOp) (s2 : SpecState)
    (hnd : (s.networks.map Prod.fst).Nodup)
    (hrun : runOps s ops = .ok s2) :
    ((s2.networks.map Prod.fst).Nodup ∧
      ∀ z n, s.networks.lookup z = some n → s2.networks.lookup z = some n) ∧
    (∀ (t : SpecState) (cls : ProviderClasses) (m : String) (img : Option String)
        (z : String) (t2 : SpecState) (vm : VM),
      t.static_vms = [] → CLASSES t.cloud = .ok cls →
      t.machine_type = .scalar m → t.image = .scalar img → z.isEmpty = false →
      CreateVirtualMachine t (some z) = .ok (t2, vm) →
      (∀ n, t.networks.lookup z = some n →
        t2.networks = t.networks ∧ vm.vm_spec.network = n) ∧
      (t.networks.lookup z = none →
        t2.networks = t.networks ++ [(z, cls.network z)] ∧
        vm.vm_spec.network = cls.network z ∧
        t2.networks.lookup z = some (cls.network z))) :=
  ⟨runOps_networks ops s s2 hnd hrun,
   fun t cls m img z t2 vm h1 h2 h3 h4 h5 h6 =>
     createVM_network t z cls m img t2 vm h1 h2 h3 h4 h5 h6⟩

/-- Witness for C5: a concrete call sequence that revisits zones; the final
networks map still has nodup keys and keeps the initial entry for z1. -/
theorem c5_network_memoized_witness :
    ∃ s2, runOps examplePlan exampleOps = .ok s2 ∧
      (s2.networks.map Prod.fst).Nodup ∧
      s2.networks.lookup "z1" = some ⟨"GCP", "z1"⟩ := by
  obtain ⟨⟨h1, h2⟩, _⟩ :=
    c5_network_memoized examplePlan exampleOps _ (by decide) rfl
  exact ⟨_, rfl, h1, h2 "z1" ⟨"GCP", "z1"⟩ rfl⟩
